import Mathlib

/-!
Verification development for the youtube-shorts-platform repository.

The repository's only source file is `src/frontend/src/App.jsx`, a React
component that fetches `GET /channels/trending` and renders the result.
Part I embeds that client code (the fetch handlers and the rendering of
the per-channel cards).  Part II models, from the specification, the
Channel Trend Scoring Engine that the spec reconstructs (its code is not
in the repository), and proves the spec's testable properties about it.
-/

/-! ### Part I: the client (`src/frontend/src/App.jsx`) -/

/-- JavaScript values as seen by the response handler: the JSON body
shapes plus `undefined`, which member access on a non-object yields. -/
inductive JVal where
  | undef : JVal
  | null : JVal
  | bool (b : Bool) : JVal
  | num (n : Int) : JVal
  | str (s : String) : JVal
  | arr (xs : List JVal) : JVal
  | obj (fields : List (String × JVal)) : JVal
deriving Repr

/-- Field lookup in an object literal: first binding wins, missing
fields read as `undefined`. -/
def lookupField : List (String × JVal) → String → JVal
  | [], _ => JVal.undef
  | (k, v) :: rest, key => if k = key then v else lookupField rest key

/-- JavaScript member access `v.key`.  On `null` or `undefined` it throws
a `TypeError` (modelled as `Except.error`); on any other non-object value
it yields `undefined`; on an object it looks the field up. -/
def getMember : JVal → String → Except Unit JVal
  | JVal.undef, _ => Except.error ()
  | JVal.null, _ => Except.error ()
  | JVal.obj fields, key => Except.ok (lookupField fields key)
  | _, _ => Except.ok JVal.undef

/-- JavaScript truthiness: `undefined`, `null`, `false`, `0` and `""` are
falsy; every object and array (even empty) is truthy. -/
def truthy : JVal → Bool
  | JVal.undef => false
  | JVal.null => false
  | JVal.bool b => b
  | JVal.num n => n != 0
  | JVal.str s => s != ""
  | JVal.arr _ => true
  | JVal.obj _ => true

/-- `Array.isArray`. -/
def isArray : JVal → Bool
  | JVal.arr _ => true
  | _ => false

/-- Strict equality `v === 'lit'` against a string literal. -/
def isStr : JVal → String → Bool
  | JVal.str s, t => s = t
  | _, _ => false

/-- `v !== undefined`. -/
def isDefined : JVal → Bool
  | JVal.undef => false
  | _ => true

/-- React state of the `App` component: `channels` (initially `[]`),
`loading` (initially `true`), `error` (initially `null`). -/
structure AppState where
  channels : JVal
  loading : Bool
  error : JVal
deriving Repr

/-- The initial state set by the `useState` calls (App.jsx lines 5-7). -/
def initialState : AppState :=
  { channels := JVal.arr [], loading := true, error := JVal.null }

def invalidFormatMsg : String := "Invalid response format from server"

def connectFailMsg : String := "Failed to connect to server. Please try again later."

/-- The `.then` callback of the fetch (App.jsx lines 15-35), as a state
transformer on the response body `data`.  A thrown `TypeError` (member
access on a `null`/`undefined` body) rejects the promise, modelled as
`Except.error`.  Every state update the callback performs before such a
throw would persist, but the only possible throw is at the very first
member access `data.channels`, before any update. -/
def thenCallback (data : JVal) : Except Unit AppState :=
  match getMember data "channels" with
  | Except.error e => Except.error e
  | Except.ok ch =>
    if isDefined ch then
      -- New format: {status, message, channels}; setChannels(data.channels || [])
      let channelsSet := if truthy ch then ch else JVal.arr []
      match getMember data "status" with
      | Except.error e => Except.error e
      | Except.ok st =>
        if isStr st "error" then
          match getMember data "message" with
          | Except.error e => Except.error e
          | Except.ok msg =>
            Except.ok { channels := channelsSet, loading := false, error := msg }
        else if isStr st "no_results" then
          match getMember data "message" with
          | Except.error e => Except.error e
          | Except.ok msg =>
            Except.ok { channels := channelsSet, loading := false, error := msg }
        else
          Except.ok { channels := channelsSet, loading := false, error := JVal.null }
    else if isArray data then
      -- Old format: direct array
      Except.ok { channels := data, loading := false, error := JVal.null }
    else
      Except.ok { channels := JVal.arr [], loading := false,
                  error := JVal.str invalidFormatMsg }

/-- The `.catch` callback (App.jsx lines 36-40): runs on a network
failure, and also when the `.then` callback itself throws. -/
def catchState : AppState :=
  { channels := JVal.arr [], loading := false, error := JVal.str connectFailMsg }

/-- State after a 2xx response with body `data`: the `.then` callback,
with a throw inside it handed to the `.catch` callback. -/
def handleSuccess (data : JVal) : AppState :=
  match thenCallback data with
  | Except.ok s => s
  | Except.error _ => catchState

/-- Outcome of the `axios.get` call: a response body, or a network/HTTP
failure. -/
inductive FetchOutcome where
  | success (body : JVal) : FetchOutcome
  | failure : FetchOutcome

/-- The component state once the fetch settles, for every outcome. -/
def handleOutcome : FetchOutcome → AppState
  | FetchOutcome.success body => handleSuccess body
  | FetchOutcome.failure => catchState

/-- The three top-level returns of `App` (App.jsx lines 43, 81, 120):
the loading view, the error view (shown when `error` is truthy), and the
main view rendering the `channels` state. -/
inductive View where
  | loadingView : View
  | errorView (msg : JVal) : View
  | mainView (channels : JVal) : View
deriving Repr

/-- Top-level render of `App` as a function of its state. -/
def render (s : AppState) : View :=
  if s.loading then View.loadingView
  else if truthy s.error then View.errorView s.error
  else View.mainView s.channels

/-! #### Rendering of the channel list (App.jsx lines 152-228)

The list body is either the empty-result block (lines 152-162) with its
criteria caption, or one card per channel (lines 165-226).  A channel
object is typed here by the fields the card reads: the data contract
(spec section 3) types the numeric fields as non-negative integers, with
absence standing for a missing field (JavaScript `undefined`). -/

/-- One channel object as the card rendering reads it.  `none` on a
numeric field models the field being absent from the payload. -/
structure Channel where
  channel_id : Option String
  name : String
  subscriber_count : Option Nat
  view_count : Option Nat
  video_count : Option Nat
  channel_age_days : Option Nat
  viral_video_count : Option Nat
  note : Option String
deriving Repr

/-- Decimal digits of `n`, least significant first, as characters. -/
def natDigitsRev (n : Nat) : List Char :=
  if h : n < 10 then [Char.ofNat (48 + n)]
  else Char.ofNat (48 + n % 10) :: natDigitsRev (n / 10)
decreasing_by exact Nat.div_lt_self (by omega) (by omega)

/-- Split a digit list into groups of three, from the front. -/
def chunk3 (l : List Char) : List (List Char) :=
  match l with
  | [] => []
  | c :: rest => (c :: rest).take 3 :: chunk3 ((c :: rest).drop 3)
termination_by l.length
decreasing_by simp [List.length_drop]; omega

/-- Join character groups with comma separators. -/
def joinComma : List (List Char) → List Char
  | [] => []
  | [g] => g
  | g :: g2 :: rest => g ++ ',' :: joinComma (g2 :: rest)

/-- `Number.prototype.toLocaleString` on a non-negative integer in the
default en-US locale: decimal digits grouped in threes by commas. -/
def jsToLocaleString (n : Nat) : String :=
  String.mk (joinComma (((chunk3 (natDigitsRev n)).map List.reverse).reverse))

/-- `channel.<field>?.toLocaleString() || 'N/A'` (App.jsx lines
190-196): an absent field optional-chains to `undefined`, which is falsy,
so `'N/A'` is shown; a present number renders via `toLocaleString`, and
the resulting string falls back to `'N/A'` only if it is empty (falsy). -/
def displayCount (v : Option Nat) : String :=
  match v with
  | none => "N/A"
  | some n =>
    let s := jsToLocaleString n
    if s = "" then "N/A" else s

/-- ``channel.channel_age_days ? `${channel.channel_age_days} days` :
'N/A'`` (App.jsx line 199): the number itself is tested for truthiness,
so both an absent field and the number `0` show `'N/A'`. -/
def displayAge (v : Option Nat) : String :=
  match v with
  | none => "N/A"
  | some n => if n ≠ 0 then toString n ++ " days" else "N/A"

/-- Banner text of the viral-videos block (App.jsx line 211). -/
def viralBannerText (n : Nat) : String :=
  toString n ++ " recent videos with 500K+ views"

/-- The rendered card of one channel: the four metric lines, the
viral-videos banner when present, and the note line when present. -/
structure Card where
  name : String
  subscribers : String
  totalViews : String
  videos : String
  channelAge : String
  viralBanner : Option String
  noteLine : Option String
deriving Repr

/-- Card rendering (App.jsx lines 165-226).  The banner renders exactly
when `channel.viral_video_count !== undefined` (line 203); the note
renders when `channel.note` is truthy, i.e. a nonempty string
(line 215). -/
def renderCard (c : Channel) : Card :=
  { name := c.name
    subscribers := displayCount c.subscriber_count
    totalViews := displayCount c.view_count
    videos := displayCount c.video_count
    channelAge := displayAge c.channel_age_days
    viralBanner := c.viral_video_count.map viralBannerText
    noteLine := match c.note with
      | some s => if s ≠ "" then some s else none
      | none => none }

/-- Body of the main view: the empty-result block with its two captions,
or the list of cards. -/
inductive ChannelsBody where
  | emptyState (message criteria : String) : ChannelsBody
  | cards (cs : List Card) : ChannelsBody
deriving Repr

def noChannelsMsg : String := "No channels found matching the criteria."

def criteriaMsg : String :=
  "Criteria: 3+ viral videos (1M+ views) in last 10 uploads within 3 months"

/-- Channel-list rendering (App.jsx lines 152-228): the empty-result
block when `channels.length === 0`, otherwise one card per channel. -/
def renderChannels (chs : List Channel) : ChannelsBody :=
  if chs.length = 0 then ChannelsBody.emptyState noChannelsMsg criteriaMsg
  else ChannelsBody.cards (chs.map renderCard)

/-! ### Part II: the Channel Trend Scoring Engine (modelled from the spec)

The engine is not part of the repository; the spec (sections 2-4)
reconstructs its contract.  Everything below is modelled from the spec
text, as the spec states it. -/

/-- Modelled from the spec: the virality policy constants of section
4.2, `(VIRAL_VIEW_THRESHOLD, VIRAL_WINDOW_DAYS)`, which the spec leaves
as configuration (two observed candidate pairs, section 9); the engine
code that would fix them is missing from the repository. -/
structure ViralPolicy where
  VIRAL_VIEW_THRESHOLD : Nat
  VIRAL_WINDOW_DAYS : Nat
deriving Repr

/-- Modelled from the spec: a Video Sample (spec section 3) — one
uploaded video, with its point-in-time view count and its age in days
derived from `published_at` and the evaluation time. -/
structure VideoSample where
  video_id : String
  view_count : Nat
  age_days : Nat
deriving Repr

/-- Modelled from the spec: the virality predicate of section 4.2,
``is_viral(v) := v.view_count >= VIRAL_VIEW_THRESHOLD AND v.age_days <=
VIRAL_WINDOW_DAYS``; the engine code holding it is missing from the
repository. -/
def is_viral (p : ViralPolicy) (v : VideoSample) : Bool :=
  decide (p.VIRAL_VIEW_THRESHOLD ≤ v.view_count) &&
    decide (v.age_days ≤ p.VIRAL_WINDOW_DAYS)

/-- Modelled from the spec: a Channel Snapshot (spec section 3) — one
channel at evaluation time, with its most recent video samples and the
optional prior subscriber count enabling growth computation. -/
structure ChannelSnapshot where
  channel_id : String
  name : String
  subscriber_count : Nat
  view_count : Nat
  video_count : Nat
  channel_age_days : Nat
  recent_videos : List VideoSample
  subscriber_count_14d_ago : Option Nat
deriving Repr

/-- Modelled from the spec: ``viral_video_count = count(v in
recent_videos where is_viral(v))`` (spec section 4.2); the engine code is
missing from the repository. -/
def viral_video_count (p : ViralPolicy) (snap : ChannelSnapshot) : Nat :=
  snap.recent_videos.countP (is_viral p)

/-- Modelled from the spec: the growth computation of section 4.2 —
``growth_14d = (subscriber_count - subscriber_count_14d_ago) /
subscriber_count_14d_ago`` when the prior value is present and non-zero,
otherwise `null` (here `none`); the engine code is missing from the
repository. -/
def growth_14d (snap : ChannelSnapshot) : Option ℚ :=
  match snap.subscriber_count_14d_ago with
  | none => none
  | some 0 => none
  | some prior =>
    some (((snap.subscriber_count : ℚ) - (prior : ℚ)) / (prior : ℚ))

/-- Modelled from the spec: ``growth_velocity = growth_14d / 14`` when
defined, else `null` (spec section 4.2); the engine code is missing from
the repository. -/
def growth_velocity (snap : ChannelSnapshot) : Option ℚ :=
  (growth_14d snap).map (fun g => g / 14)

/-- Modelled from the spec: a Trend Evaluation (spec section 3), the
engine output for one Channel Snapshot, restricted to the fields the
claims under proof mention. -/
structure TrendEvaluation where
  channel_id : String
  viral_video_count : Nat
  growth_14d : Option ℚ
  growth_velocity : Option ℚ
  trend_score : ℚ
deriving Repr

/-- Modelled from the spec: the engine as a total function `Channel
Snapshot → Trend Evaluation` (spec section 2); the composite
`trend_score` weighting is policy (spec section 4.3), so it is passed in
as a parameter.  The engine code is missing from the repository. -/
def evaluate (p : ViralPolicy) (score : ChannelSnapshot → ℚ)
    (snap : ChannelSnapshot) : TrendEvaluation :=
  { channel_id := snap.channel_id
    viral_video_count := viral_video_count p snap
    growth_14d := growth_14d snap
    growth_velocity := growth_velocity snap
    trend_score := score snap }

/-- Modelled from the spec: the ranking order of section 4.3 — `a` ranks
strictly before `b` when its `trend_score` is higher, with ties broken
by `viral_video_count` descending, then `channel_id` ascending; the
ranking code is missing from the repository. -/
def rankLt (a b : TrendEvaluation) : Prop :=
  b.trend_score < a.trend_score ∨
    (a.trend_score = b.trend_score ∧
      (b.viral_video_count < a.viral_video_count ∨
        (a.viral_video_count = b.viral_video_count ∧
          a.channel_id < b.channel_id)))

instance (a b : TrendEvaluation) : Decidable (rankLt a b) := by
  unfold rankLt; infer_instance

/-! ### Helper lemmas -/

theorem getMember_ok_all (d : JVal) (k : String) (v : JVal)
    (h : getMember d k = Except.ok v) (k' : String) :
    ∃ v', getMember d k' = Except.ok v' := by
  cases d <;> simp [getMember] at h ⊢

theorem thenCallback_ok_loading (d : JVal) (s : AppState)
    (h : thenCallback d = Except.ok s) : s.loading = false := by
  simp only [thenCallback] at h
  repeat' split at h
  all_goals first
    | (injection h with h; subst h; rfl)
    | exact absurd h (by simp)

theorem handleSuccess_channels_defined (d : JVal) (ch : JVal)
    (h : getMember d "channels" = Except.ok ch) (hdef : isDefined ch = true) :
    (handleSuccess d).channels = (if truthy ch then ch else JVal.arr []) := by
  obtain ⟨st, hst⟩ := getMember_ok_all d "channels" _ h "status"
  obtain ⟨mg, hmg⟩ := getMember_ok_all d "channels" _ h "message"
  simp only [handleSuccess, thenCallback, h, hdef, if_true, hst, hmg]
  by_cases h1 : isStr st "error" = true
  · simp [h1]
  · by_cases h2 : isStr st "no_results" = true
    · simp [h1, h2]
    · simp [h1, h2]

/-! ### Claim theorems -/

/-- C8: for every fetch outcome — a response body of any shape or a
network failure — the settled component state has `loading = false`, so
the loading view is never rendered again after the request completes. -/
theorem fetch_completion_clears_loading (o : FetchOutcome) :
    (handleOutcome o).loading = false ∧
      render (handleOutcome o) ≠ View.loadingView := by
  have hl : (handleOutcome o).loading = false := by
    cases o with
    | failure => rfl
    | success d =>
      show (handleSuccess d).loading = false
      unfold handleSuccess
      cases h : thenCallback d with
      | ok s => exact thenCallback_ok_loading d s h
      | error e => rfl
  refine ⟨hl, ?_⟩
  unfold render
  rw [hl]
  simp only [Bool.false_eq_true, if_false]
  split <;> simp

/-- C2: a `no_results` envelope is handled as a normal, reportable
outcome: the `.then` callback completes without throwing (so the fault
path — the `.catch` callback — is not taken), the accompanying message
is stored for display, the channel list is still set, and the message is
what the component reports. -/
theorem no_results_reported_not_fault (m : String) (xs : List JVal) :
    thenCallback (JVal.obj
        [("status", JVal.str "no_results"), ("message", JVal.str m),
         ("channels", JVal.arr xs)]) =
      Except.ok { channels := JVal.arr xs, loading := false, error := JVal.str m }
  ∧ handleSuccess (JVal.obj
        [("status", JVal.str "no_results"), ("message", JVal.str m),
         ("channels", JVal.arr xs)]) =
      { channels := JVal.arr xs, loading := false, error := JVal.str m }
  ∧ (m ≠ "" → render (handleSuccess (JVal.obj
        [("status", JVal.str "no_results"), ("message", JVal.str m),
         ("channels", JVal.arr xs)])) = View.errorView (JVal.str m)) := by
  refine ⟨rfl, rfl, fun hm => ?_⟩
  have h2 : handleSuccess (JVal.obj
      [("status", JVal.str "no_results"), ("message", JVal.str m),
       ("channels", JVal.arr xs)]) =
      { channels := JVal.arr xs, loading := false, error := JVal.str m } := rfl
  rw [h2]
  simp [render, truthy, hm]

/-- C2 witness at a concrete message and empty channel list. -/
theorem no_results_reported_not_fault_witness :
    handleSuccess (JVal.obj
        [("status", JVal.str "no_results"), ("message", JVal.str "No matches"),
         ("channels", JVal.arr [])]) =
      { channels := JVal.arr [], loading := false, error := JVal.str "No matches" }
  ∧ render (handleSuccess (JVal.obj
        [("status", JVal.str "no_results"), ("message", JVal.str "No matches"),
         ("channels", JVal.arr [])])) = View.errorView (JVal.str "No matches") :=
  ⟨(no_results_reported_not_fault "No matches" []).2.1,
   (no_results_reported_not_fault "No matches" []).2.2 (by decide)⟩

/-- C1 counterexample: a response body of JSON `null` is neither an
envelope with a `channels` field nor a bare array ("any other body
shape"), yet it does NOT produce the invalid-format error state: the
member access `data.channels` throws, the promise rejects, and the
`.catch` callback sets the connection-failure message instead. -/
theorem null_body_takes_connect_failure_path :
    getMember JVal.null "channels" = Except.error ()
  ∧ isArray JVal.null = false
  ∧ handleSuccess JVal.null = catchState
  ∧ (handleSuccess JVal.null).error = JVal.str connectFailMsg
  ∧ connectFailMsg ≠ invalidFormatMsg := by
  refine ⟨rfl, rfl, rfl, rfl, ?_⟩
  decide

/-- C1 (amended): for every response body except JSON `null` (whose
member access throws and is handled by the network-failure path), the
client accepts both contract shapes: a body with a `channels` field has
that list (or `[]` when the field is `null`) become the channels state
the main view displays; a bare array is used directly; any other body
shape produces the invalid-format error state and leaves the channels
state at the initial empty list. -/
theorem response_shape_handling (d : JVal) :
    (∀ xs, getMember d "channels" = Except.ok (JVal.arr xs) →
        (handleSuccess d).channels = JVal.arr xs)
  ∧ (getMember d "channels" = Except.ok JVal.null →
        (handleSuccess d).channels = JVal.arr [])
  ∧ (∀ xs, d = JVal.arr xs → (handleSuccess d).channels = JVal.arr xs)
  ∧ (getMember d "channels" = Except.ok JVal.undef → isArray d = false →
        (handleSuccess d).error = JVal.str invalidFormatMsg ∧
          (handleSuccess d).channels = JVal.arr [])
  ∧ (d = JVal.null → handleSuccess d = catchState) := by
  refine ⟨?_, ?_, ?_, ?_, ?_⟩
  · intro xs h
    exact handleSuccess_channels_defined d _ h rfl
  · intro h
    exact handleSuccess_channels_defined d _ h rfl
  · intro xs h
    subst h
    rfl
  · intro h1 h2
    simp only [handleSuccess, thenCallback, h1, isDefined, h2]
    exact ⟨rfl, rfl⟩
  · intro h
    subst h
    rfl

/-- C1 witness: the amended theorem applied at one concrete body of each
shape. -/
theorem response_shape_handling_witness :
    (handleSuccess (JVal.obj [("channels", JVal.arr [JVal.num 1])])).channels =
        JVal.arr [JVal.num 1]
  ∧ (handleSuccess (JVal.obj [("channels", JVal.null)])).channels = JVal.arr []
  ∧ (handleSuccess (JVal.arr [JVal.num 2])).channels = JVal.arr [JVal.num 2]
  ∧ (handleSuccess (JVal.str "x")).error = JVal.str invalidFormatMsg
  ∧ handleSuccess JVal.null = catchState :=
  ⟨(response_shape_handling
      (JVal.obj [("channels", JVal.arr [JVal.num 1])])).1 [JVal.num 1] rfl,
   (response_shape_handling (JVal.obj [("channels", JVal.null)])).2.1 rfl,
   (response_shape_handling (JVal.arr [JVal.num 2])).2.2.1 [JVal.num 2] rfl,
   ((response_shape_handling (JVal.str "x")).2.2.2.1 rfl rfl).1,
   (response_shape_handling JVal.null).2.2.2.2 rfl⟩

/-- C10: the viral-videos banner is rendered exactly when the channel
object carries a `viral_video_count` field; in particular a count of 0
still shows the banner, while a channel lacking the field shows none. -/
theorem viral_banner_iff_field_present (c : Channel) :
    ((renderCard c).viralBanner.isSome = c.viral_video_count.isSome)
  ∧ (c.viral_video_count = some 0 →
      (renderCard c).viralBanner = some "0 recent videos with 500K+ views")
  ∧ (c.viral_video_count = none → (renderCard c).viralBanner = none) := by
  refine ⟨?_, ?_, ?_⟩
  · simp [renderCard]
  · intro h
    simp [renderCard, h, viralBannerText]
    rfl
  · intro h
    simp [renderCard, h]

/-- C10 witness at concrete channels with `viral_video_count = 0` and
with the field absent. -/
theorem viral_banner_iff_field_present_witness :
    (renderCard ⟨none, "ch", none, none, none, none, some 0, none⟩).viralBanner =
        some "0 recent videos with 500K+ views"
  ∧ (renderCard ⟨none, "ch", none, none, none, none, none, none⟩).viralBanner =
        none :=
  ⟨(viral_banner_iff_field_present
      ⟨none, "ch", none, none, none, none, some 0, none⟩).2.1 rfl,
   (viral_banner_iff_field_present
      ⟨none, "ch", none, none, none, none, none, none⟩).2.2 rfl⟩

/-- C3: the rendered contract carries two virality threshold policies at
once — the empty-result block always states the 1M-view, 10-upload,
3-month eligibility criteria, while every rendered viral banner captions
`viral_video_count` as recent videos with 500K+ views. -/
theorem two_virality_policies_displayed (c : Channel) (n : Nat)
    (h : c.viral_video_count = some n) :
    renderChannels [] = ChannelsBody.emptyState
        "No channels found matching the criteria."
        "Criteria: 3+ viral videos (1M+ views) in last 10 uploads within 3 months"
  ∧ (renderCard c).viralBanner =
      some (toString n ++ " recent videos with 500K+ views") := by
  constructor
  · rfl
  · simp [renderCard, h, viralBannerText]

/-- C3 witness at a concrete channel with three viral videos. -/
theorem two_virality_policies_displayed_witness :
    renderChannels [] = ChannelsBody.emptyState
        "No channels found matching the criteria."
        "Criteria: 3+ viral videos (1M+ views) in last 10 uploads within 3 months"
  ∧ (renderCard ⟨none, "ch", none, none, none, none, some 3, none⟩).viralBanner =
      some "3 recent videos with 500K+ views" :=
  two_virality_policies_displayed
    ⟨none, "ch", none, none, none, none, some 3, none⟩ 3 rfl

theorem digitChar_le (d : Nat) (h : d < 10) :
    (Char.ofNat (48 + d)).toNat ≤ 57 := by
  interval_cases d <;> decide

theorem mem_natDigitsRev_le (n : Nat) :
    ∀ c ∈ natDigitsRev n, c.toNat ≤ 57 := by
  induction n using Nat.strong_induction_on with
  | _ n ih =>
    unfold natDigitsRev
    split
    · next h =>
      intro c hc
      simp only [List.mem_singleton] at hc
      subst hc
      exact digitChar_le n h
    · next h =>
      intro c hc
      simp only [List.mem_cons] at hc
      rcases hc with rfl | hc
      · exact digitChar_le (n % 10) (Nat.mod_lt _ (by omega))
      · exact ih (n / 10) (Nat.div_lt_self (by omega) (by omega)) c hc

theorem natDigitsRev_ne_nil (n : Nat) : natDigitsRev n ≠ [] := by
  unfold natDigitsRev
  split <;> simp

theorem mem_chunk3 (l : List Char) : ∀ g ∈ chunk3 l, ∀ c ∈ g, c ∈ l := by
  induction l using chunk3.induct with
  | case1 => simp [chunk3]
  | case2 c rest ih =>
    intro g hg x hx
    unfold chunk3 at hg
    simp only [List.mem_cons] at hg
    rcases hg with rfl | hg
    · exact List.mem_of_mem_take hx
    · exact List.mem_of_mem_drop (ih g hg x hx)

theorem chunk3_mem_ne_nil (l : List Char) : ∀ g ∈ chunk3 l, g ≠ [] := by
  induction l using chunk3.induct with
  | case1 => simp [chunk3]
  | case2 c rest ih =>
    intro g hg
    unfold chunk3 at hg
    simp only [List.mem_cons] at hg
    rcases hg with rfl | hg
    · simp
    · exact ih g hg

theorem chunk3_eq_nil_iff (l : List Char) : chunk3 l = [] ↔ l = [] := by
  cases l <;> simp [chunk3]

theorem mem_joinComma (gs : List (List Char)) :
    ∀ c ∈ joinComma gs, c = ',' ∨ ∃ g ∈ gs, c ∈ g := by
  induction gs with
  | nil => simp [joinComma]
  | cons g rest ih =>
    cases rest with
    | nil =>
      intro c hc
      right
      exact ⟨g, by simp, by simpa [joinComma] using hc⟩
    | cons g2 rest2 =>
      intro c hc
      simp only [joinComma, List.mem_append, List.mem_cons] at hc
      rcases hc with hc | hc | hc
      · right; exact ⟨g, by simp, hc⟩
      · left; exact hc
      · rcases ih c hc with h | ⟨g3, hg3, hcg⟩
        · left; exact h
        · right
          exact ⟨g3, List.mem_cons_of_mem g hg3, hcg⟩

theorem joinComma_ne_nil (gs : List (List Char)) (h0 : gs ≠ [])
    (h1 : ∀ g ∈ gs, g ≠ []) : joinComma gs ≠ [] := by
  cases gs with
  | nil => exact absurd rfl h0
  | cons g rest =>
    cases rest with
    | nil =>
      simpa [joinComma] using h1 g (by simp)
    | cons g2 rest2 =>
      simp [joinComma]

theorem jsToLocaleString_chars (n : Nat) :
    ∀ c ∈ (jsToLocaleString n).data, c.toNat ≤ 57 := by
  intro c hc
  have hc' : c ∈ joinComma (((chunk3 (natDigitsRev n)).map List.reverse).reverse) := hc
  rcases mem_joinComma _ c hc' with rfl | ⟨g, hg, hcg⟩
  · decide
  · simp only [List.mem_reverse, List.mem_map] at hg
    obtain ⟨g0, hg0, rfl⟩ := hg
    have hcg0 : c ∈ g0 := by simpa using hcg
    exact mem_natDigitsRev_le n c (mem_chunk3 _ g0 hg0 c hcg0)

theorem jsToLocaleString_ne_empty (n : Nat) : jsToLocaleString n ≠ "" := by
  unfold jsToLocaleString
  intro h
  have hdata : joinComma (((chunk3 (natDigitsRev n)).map List.reverse).reverse) = [] :=
    congrArg String.data h
  refine joinComma_ne_nil _ ?_ ?_ hdata
  · simp [List.map_eq_nil_iff, chunk3_eq_nil_iff, natDigitsRev_ne_nil n]
  · intro g hg
    simp only [List.mem_reverse, List.mem_map] at hg
    obtain ⟨g0, hg0, rfl⟩ := hg
    simpa using chunk3_mem_ne_nil _ g0 hg0

theorem jsToLocaleString_ne_NA (n : Nat) : jsToLocaleString n ≠ "N/A" := by
  intro h
  have hN : 'N' ∈ (jsToLocaleString n).data := by
    rw [h]
    decide
  exact absurd (jsToLocaleString_chars n 'N' hN) (by decide)

theorem displayCount_some (n : Nat) : displayCount (some n) = jsToLocaleString n := by
  simp [displayCount, jsToLocaleString_ne_empty n]

theorem jsToLocaleString_zero : jsToLocaleString 0 = "0" := by
  simp [jsToLocaleString, natDigitsRev, chunk3, joinComma]

theorem displayCount_eq_NA_iff (v : Option Nat) :
    displayCount v = "N/A" ↔ v = none := by
  cases v with
  | none => simp [displayCount]
  | some n => simp [displayCount_some, jsToLocaleString_ne_NA n]

/-- C9: a `channel_age_days` of 0 renders as N/A because the number
itself is tested for truthiness, while a `subscriber_count`, `view_count`
or `video_count` of 0 renders as "0", and for those three fields N/A is
rendered exactly when the field is absent. -/
theorem zero_vs_absent_field_rendering (c : Channel) :
    (c.channel_age_days = some 0 → (renderCard c).channelAge = "N/A")
  ∧ (c.subscriber_count = some 0 → (renderCard c).subscribers = "0")
  ∧ (c.view_count = some 0 → (renderCard c).totalViews = "0")
  ∧ (c.video_count = some 0 → (renderCard c).videos = "0")
  ∧ ((renderCard c).subscribers = "N/A" ↔ c.subscriber_count = none)
  ∧ ((renderCard c).totalViews = "N/A" ↔ c.view_count = none)
  ∧ ((renderCard c).videos = "N/A" ↔ c.video_count = none) := by
  refine ⟨?_, ?_, ?_, ?_, ?_, ?_, ?_⟩
  · intro h
    simp [renderCard, displayAge, h]
  · intro h
    simp only [renderCard, h]
    rw [displayCount_some]
    exact jsToLocaleString_zero
  · intro h
    simp only [renderCard, h]
    rw [displayCount_some]
    exact jsToLocaleString_zero
  · intro h
    simp only [renderCard, h]
    rw [displayCount_some]
    exact jsToLocaleString_zero
  · exact displayCount_eq_NA_iff c.subscriber_count
  · exact displayCount_eq_NA_iff c.view_count
  · exact displayCount_eq_NA_iff c.video_count

/-- C9 witness at a concrete channel whose four numeric fields are 0. -/
theorem zero_vs_absent_field_rendering_witness :
    (renderCard ⟨none, "ch", some 0, some 0, some 0, some 0, none, none⟩).channelAge
        = "N/A"
  ∧ (renderCard ⟨none, "ch", some 0, some 0, some 0, some 0, none, none⟩).subscribers
        = "0" :=
  ⟨(zero_vs_absent_field_rendering
      ⟨none, "ch", some 0, some 0, some 0, some 0, none, none⟩).1 rfl,
   (zero_vs_absent_field_rendering
      ⟨none, "ch", some 0, some 0, some 0, some 0, none, none⟩).2.1 rfl⟩

/-- C4: for every virality policy and Channel Snapshot, the viral-video
count is between 0 and the number of recent video samples. -/
theorem viral_count_bounded (p : ViralPolicy) (snap : ChannelSnapshot) :
    0 ≤ viral_video_count p snap ∧
      viral_video_count p snap ≤ snap.recent_videos.length :=
  ⟨Nat.zero_le _, List.countP_le_length _⟩

/-- C5: when the prior subscriber count is 0 or absent, the engine
returns `growth_14d` and `growth_velocity` exactly null (`none`), and
the channel is still evaluated — `evaluate` is total and produces the
full Trend Evaluation with the null growth fields. -/
theorem growth_null_on_missing_or_zero_prior (p : ViralPolicy)
    (score : ChannelSnapshot → ℚ) (snap : ChannelSnapshot)
    (h : snap.subscriber_count_14d_ago = none ∨
         snap.subscriber_count_14d_ago = some 0) :
    (evaluate p score snap).growth_14d = none
  ∧ (evaluate p score snap).growth_velocity = none
  ∧ evaluate p score snap =
      { channel_id := snap.channel_id
        viral_video_count := viral_video_count p snap
        growth_14d := none
        growth_velocity := none
        trend_score := score snap } := by
  have hg : growth_14d snap = none := by
    rcases h with h | h <;> simp [growth_14d, h]
  have hv : growth_velocity snap = none := by
    simp [growth_velocity, hg]
  exact ⟨hg, hv, by simp [evaluate, hg, hv]⟩

/-- C5 witness at a concrete snapshot with no prior subscriber count. -/
theorem growth_null_on_missing_or_zero_prior_witness :
    (evaluate ⟨1000000, 90⟩ (fun _ => 0)
        ⟨"c1", "ch", 100, 1000, 10, 30, [], none⟩).growth_14d = none
  ∧ (evaluate ⟨1000000, 90⟩ (fun _ => 0)
        ⟨"c1", "ch", 100, 1000, 10, 30, [], none⟩).growth_velocity = none :=
  ⟨(growth_null_on_missing_or_zero_prior ⟨1000000, 90⟩ (fun _ => 0)
      ⟨"c1", "ch", 100, 1000, 10, 30, [], none⟩ (Or.inl rfl)).1,
   (growth_null_on_missing_or_zero_prior ⟨1000000, 90⟩ (fun _ => 0)
      ⟨"c1", "ch", 100, 1000, 10, 30, [], none⟩ (Or.inl rfl)).2.1⟩

/-- C7: the virality predicate is monotonic in the view count — raising
a video's view count while keeping its age fixed never turns a viral
video non-viral. -/
theorem is_viral_monotone_in_views (p : ViralPolicy) (v : VideoSample)
    (w : Nat) (hw : v.view_count ≤ w) (hv : is_viral p v = true) :
    is_viral p { v with view_count := w } = true := by
  simp only [is_viral, Bool.and_eq_true, decide_eq_true_eq] at hv ⊢
  exact ⟨le_trans hv.1 hw, hv.2⟩

/-- C7 witness: a viral video stays viral when its views double. -/
theorem is_viral_monotone_in_views_witness :
    is_viral ⟨1000000, 90⟩ ⟨"v1", 2000000, 20⟩ = true :=
  is_viral_monotone_in_views ⟨1000000, 90⟩ ⟨"v1", 1000000, 20⟩ 2000000
    (by decide) (by decide)

/-- C6: on equal `trend_score`, the tie-break (viral count descending,
then channel id ascending) fully determines the relative order of two
distinct channels: exactly one of the two ranks strictly before the
other, so no two distinct channels compare equal. -/
theorem ranking_total_on_ties (a b : TrendEvaluation)
    (hid : a.channel_id ≠ b.channel_id)
    (hs : a.trend_score = b.trend_score) :
    (rankLt a b ∧ ¬ rankLt b a) ∨ (rankLt b a ∧ ¬ rankLt a b) := by
  have hsl : ¬ b.trend_score < a.trend_score := by rw [hs]; exact lt_irrefl _
  have hsr : ¬ a.trend_score < b.trend_score := by rw [hs]; exact lt_irrefl _
  rcases Nat.lt_trichotomy a.viral_video_count b.viral_video_count with hv | hv | hv
  · right
    refine ⟨Or.inr ⟨hs.symm, Or.inl hv⟩, ?_⟩
    rintro (h | ⟨-, h | ⟨hveq, -⟩⟩)
    · exact hsl h
    · omega
    · omega
  · rcases lt_trichotomy a.channel_id b.channel_id with hi | hi | hi
    · left
      refine ⟨Or.inr ⟨hs, Or.inr ⟨hv, hi⟩⟩, ?_⟩
      rintro (h | ⟨-, h | ⟨-, h⟩⟩)
      · exact hsr h
      · omega
      · exact lt_asymm hi h
    · exact absurd hi hid
    · right
      refine ⟨Or.inr ⟨hs.symm, Or.inr ⟨hv.symm, hi⟩⟩, ?_⟩
      rintro (h | ⟨-, h | ⟨-, h⟩⟩)
      · exact hsl h
      · omega
      · exact lt_asymm hi h
  · left
    refine ⟨Or.inr ⟨hs, Or.inl hv⟩, ?_⟩
    rintro (h | ⟨-, h | ⟨hveq, -⟩⟩)
    · exact hsr h
    · omega
    · omega

/-- C6 witness: two concrete evaluations tied on score and viral count,
distinguished only by channel id. -/
theorem ranking_total_on_ties_witness :
    (rankLt ⟨"a", 1, none, none, 5⟩ ⟨"b", 1, none, none, 5⟩ ∧
      ¬ rankLt ⟨"b", 1, none, none, 5⟩ ⟨"a", 1, none, none, 5⟩) ∨
    (rankLt ⟨"b", 1, none, none, 5⟩ ⟨"a", 1, none, none, 5⟩ ∧
      ¬ rankLt ⟨"a", 1, none, none, 5⟩ ⟨"b", 1, none, none, 5⟩) :=
  ranking_total_on_ties ⟨"a", 1, none, none, 5⟩ ⟨"b", 1, none, none, 5⟩
    (by decide) rfl
